import Mathlib

/-
Verification of the BrainBin front-end core: the route-guard middleware, the
API client's query timeout, the auth-context session lifecycle (login,
refreshToken, logout), the file-upload validation and background-task polling
flow, and the chat submit handler. Each definition is a shallow embedding of
the corresponding TypeScript function; JS-specific semantics (truthiness of
empty strings and of `0`, `String.prototype.includes`, cookie deletion by
past-dated expiration) are modelled explicitly where the code relies on them.
-/

/-- JS `a || b` on an optional string: `null`/`undefined` and the empty string
are falsy, so they fall through to `b`. -/
def orElseStr (a : Option String) (b : String) : String :=
  match a with
  | some s => if s = "" then b else s
  | none => b

/-- JS `hay.includes(needle)`: contiguous-substring test, modelled as list
infix on the character sequences. -/
def substrB (needle hay : String) : Bool :=
  decide (needle.toList <:+: hay.toList)

/-- JS `s.trim()`: strip leading and trailing whitespace, modelled on the
character list. -/
def jsTrim (s : String) : String :=
  ⟨((s.toList.dropWhile Char.isWhitespace).reverse.dropWhile Char.isWhitespace).reverse⟩

/-- JS `s.toLowerCase()`, modelled on the character list. -/
def jsToLower (s : String) : String :=
  ⟨s.toList.map Char.toLower⟩

namespace Middleware

/-- A request as seen by the route guard: the path, the optional `from` query
parameter (`none` = absent, `some ""` = present but empty), and the two
mirrored auth cookies (`none` = cookie absent). -/
structure MwRequest where
  pathname : String
  fromParam : Option String
  accessToken : Option String
  refreshToken : Option String
  deriving DecidableEq

/-- Result of the middleware: a redirect to a path, optionally carrying a
`from` query parameter, or passing the request through (`NextResponse.next`). -/
inductive MwResult where
  | redirect (path : String) (fromQ : Option String)
  | next
  deriving DecidableEq

/-- The coarse presence check of src/middleware.ts line 15: both cookies
present (a cookie object is truthy even when its value is empty). -/
def isAuthenticated (req : MwRequest) : Bool :=
  req.accessToken.isSome && req.refreshToken.isSome

/-- The `middleware` function of src/middleware.ts: redirect unauthenticated
requests off non-login paths to `/login` recording the original path in
`from`; redirect authenticated requests off `/login` to the `from` parameter
(when truthy and not `/login` itself) or to `/`. -/
def middleware (req : MwRequest) : MwResult :=
  if !isAuthenticated req && req.pathname != "/login" then
    .redirect "/login" (some req.pathname)
  else if isAuthenticated req && req.pathname == "/login" then
    match req.fromParam with
    | some f => if f != "" && f != "/login" then .redirect f none else .redirect "/" none
    | none => .redirect "/" none
  else
    .next

/-- The `config.matcher` of src/middleware.ts lines 44-46. -/
def matcher : List String := ["/", "/login"]

/-- Next.js dispatch: the middleware runs only on requests whose path is
matched by `config.matcher`; the matchers here are exact paths, so every
other request is never inspected and proceeds untouched. -/
def runMiddleware (req : MwRequest) : MwResult :=
  if req.pathname ∈ matcher then middleware req else .next

/-- C4: the route guard, as a function of path and cookies, redirects every
unauthenticated request to a non-login path to `/login` with `from` equal to
the requested path; redirects every authenticated request to `/login` to the
`from` parameter when it is present, non-empty and not `/login`, else to `/`;
and passes every other request through unmodified. -/
theorem C4_route_guard (req : MwRequest) :
    (isAuthenticated req = false → req.pathname ≠ "/login" →
       middleware req = .redirect "/login" (some req.pathname)) ∧
    (isAuthenticated req = true → req.pathname = "/login" →
       (∀ f, req.fromParam = some f → f ≠ "" → f ≠ "/login" →
          middleware req = .redirect f none) ∧
       ((req.fromParam = none ∨ req.fromParam = some "" ∨ req.fromParam = some "/login") →
          middleware req = .redirect "/" none)) ∧
    (isAuthenticated req = true → req.pathname ≠ "/login" → middleware req = .next) ∧
    (isAuthenticated req = false → req.pathname = "/login" → middleware req = .next) := by
  refine ⟨?_, ?_, ?_, ?_⟩
  · intro ha hp
    simp [middleware, ha, hp]
  · intro ha hp
    constructor
    · intro f hf hne hnl
      simp [middleware, ha, hp, hf, hne, hnl]
    · intro hcase
      rcases hcase with h | h | h <;> simp [middleware, ha, hp, h]
  · intro ha hp
    simp [middleware, ha, hp]
  · intro ha hp
    simp [middleware, ha, hp]

/-- C4 witness: an unauthenticated request to `/` is redirected to `/login`
with `from=/`. -/
theorem C4_witness :
    Middleware.middleware ⟨"/", none, none, none⟩ = .redirect "/login" (some "/") :=
  (C4_route_guard ⟨"/", none, none, none⟩).1 (by decide) (by decide)

/-- C9: the matcher is exactly `['/', '/login']`, and a request to any other
path is never inspected by the guard, so it is not redirected. -/
theorem C9_matcher_scope (req : MwRequest) :
    matcher = ["/", "/login"] ∧
    (req.pathname ∉ matcher → runMiddleware req = .next) := by
  refine ⟨rfl, ?_⟩
  intro h
  simp [runMiddleware, h]

/-- C9 witness: an unauthenticated (cookie-less) request to `/dashboard` passes
through the guard untouched. -/
theorem C9_witness :
    Middleware.runMiddleware ⟨"/dashboard", none, none, none⟩ = .next :=
  (C9_matcher_scope ⟨"/dashboard", none, none, none⟩).2 (by decide)

end Middleware

namespace Api

/-- A JavaScript error value: its `name` and `message`. `new Error(m)` has
name `"Error"`; the rejection of an aborted fetch is a `DOMException` named
`"AbortError"` (and is an `Error` instance). -/
structure JsError where
  name : String
  message : String
  deriving DecidableEq

/-- JSON body of a backend response, restricted to the fields the client
reads for error extraction. -/
structure RespBody where
  detail : Option String
  error : Option String
  message : Option String
  deriving DecidableEq

/-- Outcome of one `fetch`: a rejection carrying a JS error, or a response
with its `ok` flag, HTTP status text, and a parsed JSON body (`none` when the
body is not JSON, in which case `response.json().catch(() => ({}))` yields
the empty object). -/
inductive FetchOutcome where
  | reject (e : JsError)
  | response (ok : Bool) (statusText : String) (body : Option RespBody)
  deriving DecidableEq

/-- The error-message extraction of `ApiClient.request` lines 92-99:
`data.detail || data.error || data.message` with the HTTP status text as the
final fallback. -/
def extractMessage (body : Option RespBody) (statusText : String) : String :=
  let b := body.getD ⟨none, none, none⟩
  orElseStr b.detail (orElseStr b.error (orElseStr b.message ("API error: " ++ statusText)))

/-- `ApiClient.request`: fetch, parse the JSON body, and throw a
backend-derived `Error` on a non-2xx response. A rejected fetch is rethrown
unchanged, because every rejection value is an `Error` instance and so takes
the first catch branch. -/
def request (outcome : FetchOutcome) : Except JsError RespBody :=
  match outcome with
  | .reject e => .error e
  | .response ok statusText body =>
      if ok then .ok (body.getD ⟨none, none, none⟩)
      else .error ⟨"Error", extractMessage body statusText⟩

/-- The client-side query timeout in milliseconds (45 seconds),
src/lib/api.ts line 117. -/
def QUERY_TIMEOUT_MS : Nat := 45000

/-- The error message `query` throws when the abort-triggered rejection is
recognised. -/
def timeoutMessage : String := "Request timeout: The server took too long to respond"

deriving instance DecidableEq for Except

/-- Result of one `query` call: the settled value plus whether
`controller.abort()` was invoked on the in-flight request. -/
structure QueryOutcome where
  result : Except JsError RespBody
  aborted : Bool
  deriving DecidableEq

/-- `ApiClient.query` (src/lib/api.ts lines 115-133): a 45 s timer aborts the
in-flight request; the shared `request` wrapper runs the fetch; the catch
converts the `AbortError` rejection into the timeout error. `settleTime` is
the time in ms at which the fetch would settle on its own (`none` = never);
when it exceeds the timeout, the timer fires first, the request is aborted,
and fetch rejects with an `AbortError`. -/
def query (settleTime : Option Nat) (outcome : FetchOutcome) : QueryOutcome :=
  let timedOut := match settleTime with
    | none => true
    | some t => decide (QUERY_TIMEOUT_MS < t)
  if timedOut then
    { result := .error ⟨"Error", timeoutMessage⟩, aborted := true }
  else
    match request outcome with
    | .ok d => { result := .ok d, aborted := false }
    | .error e =>
        if e.name = "AbortError" then
          { result := .error ⟨"Error", timeoutMessage⟩, aborted := false }
        else
          { result := .error e, aborted := false }

/-- C5: a `query` whose fetch does not settle within 45 seconds fails with the
fixed timeout-classified error and the in-flight request is aborted; by
contrast a non-2xx response that settles in time fails with the remote
message extracted from the body, and the request is not aborted. -/
theorem C5_query_timeout (settleTime : Option Nat) (outcome : FetchOutcome)
    (statusText : String) (body : Option RespBody) :
    ((∀ t, settleTime = some t → QUERY_TIMEOUT_MS < t) →
       query settleTime outcome =
         { result := .error ⟨"Error", timeoutMessage⟩, aborted := true }) ∧
    (∀ t, settleTime = some t → t ≤ QUERY_TIMEOUT_MS →
       query settleTime (.response false statusText body) =
         { result := .error ⟨"Error", extractMessage body statusText⟩,
           aborted := false }) := by
  constructor
  · intro h
    cases hs : settleTime with
    | none => simp [query]
    | some t =>
        have ht := h t hs
        simp [query, ht]
  · intro t hs ht
    have hnot : ¬ QUERY_TIMEOUT_MS < t := Nat.not_lt.mpr ht
    simp [query, hs, hnot, request]

/-- C5 witness: a fetch that would settle at 46 s is timed out and aborted,
and a 500 response settling at 1 s yields the extracted remote message
without an abort. -/
theorem C5_witness :
    Api.query (some 46000) (.response false "Internal Server Error" none) =
      { result := .error ⟨"Error", Api.timeoutMessage⟩, aborted := true } ∧
    Api.query (some 1000) (.response false "Internal Server Error" (some ⟨some "boom", none, none⟩)) =
      { result := .error ⟨"Error", "boom"⟩, aborted := false } := by
  constructor
  · exact (C5_query_timeout (some 46000) (.response false "Internal Server Error" none)
      "Internal Server Error" none).1 (by intro t h; cases h; decide)
  · have h := (C5_query_timeout (some 1000) (.reject ⟨"Error", "unused"⟩)
      "Internal Server Error" (some ⟨some "boom", none, none⟩)).2 1000 rfl (by decide)
    simpa [Api.extractMessage, orElseStr] using h

end Api

namespace Auth

/-- The user identity held in a Supabase session and projected to the UI. -/
structure SUser where
  id : String
  email : String
  deriving DecidableEq

/-- A Supabase session: the token pair, the expiry (unix seconds), and the
user identity. -/
structure Session where
  access_token : String
  refresh_token : String
  expires_at : Nat
  user : SUser
  deriving DecidableEq

/-- Token payload returned by the backend auth endpoints (`result.data`). -/
structure AuthData where
  access_token : String
  refresh_token : String
  expires_at : String
  deriving DecidableEq

/-- Shape of the backend auth responses (`/auth/login`, `/auth/refresh`):
a `status` string, the optional token payload, and an optional message. -/
structure AuthResponse where
  status : String
  data : Option AuthData
  message : Option String
  deriving DecidableEq

/-- A mirrored cookie: the value and the expiration attribute it was written
with. Writing a cookie with the past epoch date deletes it, which the model
renders as the cookie slot becoming `none`. -/
structure CookieRec where
  value : String
  expires : String
  deriving DecidableEq

/-- The state the auth context manipulates: the Supabase session store, the
derived user, the two mirrored cookies, and the last `window.location.href`
assignment (`none` = no navigation performed). -/
structure AuthState where
  session : Option Session
  user : Option SUser
  accessCookie : Option CookieRec
  refreshCookie : Option CookieRec
  loc : Option String
  deriving DecidableEq

/-- Result of `supabase.auth.setSession`: an error, or success carrying the
session the store now holds. -/
inductive SetSessionRes where
  | err
  | ok (s : Option Session)
  deriving DecidableEq

/-- Environment of one auth operation: the outcomes of its external calls.
`Except.error ()` models a thrown/rejected backend call; `setSession` is the
Supabase response to installing a token pair; `logoutThrows` says whether the
best-effort backend logout notification throws; `fromParam` is the `from`
URL query parameter at redirect time. -/
structure Env where
  loginRes : Except Unit AuthResponse
  refreshRes : Except Unit AuthResponse
  logoutThrows : Bool
  setSession : String → String → SetSessionRes
  fromParam : Option String

/-- The session store after a `setSession` call: on success the store holds
the returned session, on error it is unchanged. -/
def applySetSession (old : Option Session) (r : SetSessionRes) : Option Session :=
  match r with
  | .err => old
  | .ok s => s

/-- The fully signed-out state: no session, no user, both cookies deleted,
hard navigation to the login view performed. -/
def loggedOutState : AuthState :=
  { session := none, user := none, accessCookie := none, refreshCookie := none,
    loc := some "/login" }

namespace AuthContext

/-- The `logout` of the AuthContext in part_003 lines 257-279 (identical to
the first revision in part_002 lines 62-84): backend notification, Supabase
sign-out, cookie clearing, user reset and redirect all sit inside one `try`
whose `catch` only logs. A throw from the backend notification (which is
attempted exactly when a session is present) therefore skips the entire
cleanup and leaves the state untouched. -/
def logout (env : Env) (st : AuthState) : AuthState :=
  if st.session.isSome && env.logoutThrows then st else loggedOutState

/-- The `refreshToken` of part_003 lines 47-68: read the session; when a
(truthy, i.e. non-empty) refresh token is present, exchange it; on a
`success` response with data, install the new tokens via `setSession` and
return true; when the exchange throws, the catch runs `logout()` and the
function returns false; on a non-success response, missing data, or a
missing refresh token it returns false without any logout. -/
def refreshToken (env : Env) (st : AuthState) : AuthState × Bool :=
  match st.session with
  | none => (st, false)
  | some s =>
      if s.refresh_token = "" then (st, false)
      else
        match env.refreshRes with
        | .error _ => (logout env st, false)
        | .ok result =>
            match result.data with
            | none => (st, false)
            | some d =>
                if result.status = "success" then
                  ({ st with session :=
                      applySetSession st.session (env.setSession d.access_token d.refresh_token) },
                   true)
                else (st, false)

/-- Redirect target after a successful login: the `from` query parameter when
truthy (JS `urlParams.get('from') || '/'`), else the landing path `/`. -/
def redirectTarget (fromParam : Option String) : String :=
  match fromParam with
  | some s => if s = "" then "/" else s
  | none => "/"

/-- The `login` of part_003 lines 139-188: backend login; on a `success`
response with data, `setSession`, then (when a new session is returned)
derive the user, mirror both tokens into cookies with the server-provided
expiry, and navigate to the `from` parameter or `/`. Thrown errors are
propagated to the caller as `Except.error`. -/
def login (env : Env) (st : AuthState) : AuthState × Except String Unit :=
  match env.loginRes with
  | .error _ => (st, .error "login request threw")
  | .ok result =>
      match result.data with
      | none => (st, .error (orElseStr result.message "Login failed"))
      | some d =>
          if result.status = "success" then
            match env.setSession d.access_token d.refresh_token with
            | .err => (st, .error "setSession error")
            | .ok none => ({ st with session := none }, .ok ())
            | .ok (some ns) =>
                ({ session := some ns, user := some ns.user,
                   accessCookie := some ⟨d.access_token, d.expires_at⟩,
                   refreshCookie := some ⟨d.refresh_token, d.expires_at⟩,
                   loc := some (redirectTarget env.fromParam) }, .ok ())
          else (st, .error (orElseStr result.message "Login failed"))

end AuthContext

namespace AuthContextV2

/-- The `logout` of the second AuthContext revision in part_002 lines
326-348: no backend notification; sign-out, cookie clearing, user reset and
redirect. Nothing in its try block can throw in this model, so the catch
branch (clear user and redirect anyway) is unreachable. -/
def logout (_st : AuthState) : AuthState :=
  loggedOutState

/-- The `refreshToken` of the second AuthContext revision in part_002 lines
351-376: identical to the part_003 version except that on success it also
rewrites both mirrored cookies with the new tokens and expiry. -/
def refreshToken (env : Env) (st : AuthState) : AuthState × Bool :=
  match st.session with
  | none => (st, false)
  | some s =>
      if s.refresh_token = "" then (st, false)
      else
        match env.refreshRes with
        | .error _ => (logout st, false)
        | .ok result =>
            match result.data with
            | none => (st, false)
            | some d =>
                if result.status = "success" then
                  ({ st with
                      session :=
                        applySetSession st.session (env.setSession d.access_token d.refresh_token),
                      accessCookie := some ⟨d.access_token, d.expires_at⟩,
                      refreshCookie := some ⟨d.refresh_token, d.expires_at⟩ },
                   true)
                else (st, false)

end AuthContextV2

/-- A representative authenticated state: live session, derived user, both
cookies mirrored, no navigation performed yet. -/
def authedState : AuthState :=
  { session := some ⟨"at0", "rt0", 1000, ⟨"u1", "user@example.com"⟩⟩,
    user := some ⟨"u1", "user@example.com"⟩,
    accessCookie := some ⟨"at0", "future"⟩,
    refreshCookie := some ⟨"rt0", "future"⟩,
    loc := none }

/-- Environment in which the refresh exchange resolves with a non-success
backend response. -/
def envRefreshDenied : Env :=
  { loginRes := .error (), refreshRes := .ok ⟨"error", none, some "Invalid refresh token"⟩,
    logoutThrows := false, setSession := fun _ _ => .err, fromParam := none }

/-- Environment in which the refresh exchange throws and the backend logout
notification does not. -/
def envRefreshThrows : Env :=
  { loginRes := .error (), refreshRes := .error (), logoutThrows := false,
    setSession := fun _ _ => .err, fromParam := none }

/-- C1 counterexample: when the backend answers the refresh exchange with a
response whose status is not success, `refreshToken` returns false and
performs no logout at all — the session, user and both cookies survive and no
redirect to the login view happens, contradicting the claim that every failed
refresh ends in a full logout. -/
theorem C1_counterexample :
    AuthContext.refreshToken envRefreshDenied authedState = (authedState, false) ∧
    authedState.user ≠ none ∧ authedState.session ≠ none ∧
    authedState.accessCookie ≠ none ∧ authedState.refreshCookie ≠ none ∧
    authedState.loc ≠ some "/login" := by decide

/-- C1 (amended): a full logout (session cleared, cookies cleared, redirect
invoked) happens only when the refresh exchange throws and the backend logout
notification itself does not throw, and repeating the failed refresh is
idempotent; when the backend response has a non-success status, or no session
or refresh token is present, `refreshToken` returns false with the state
untouched. -/
theorem C1_refresh_failure_policy (env : Env) (st : AuthState) :
    (env.refreshRes = .error () → env.logoutThrows = false →
       ∀ s, st.session = some s → s.refresh_token ≠ "" →
         AuthContext.refreshToken env st = (loggedOutState, false) ∧
         AuthContext.refreshToken env (AuthContext.refreshToken env st).1 =
           (loggedOutState, false)) ∧
    (∀ result, env.refreshRes = .ok result → result.status ≠ "success" →
       AuthContext.refreshToken env st = (st, false)) ∧
    (st.session = none → AuthContext.refreshToken env st = (st, false)) ∧
    (∀ s, st.session = some s → s.refresh_token = "" →
       AuthContext.refreshToken env st = (st, false)) := by
  refine ⟨?_, ?_, ?_, ?_⟩
  · intro h1 h2 s hs hrt
    have hfirst : AuthContext.refreshToken env st = (loggedOutState, false) := by
      simp [AuthContext.refreshToken, hs, hrt, h1, AuthContext.logout, h2]
    refine ⟨hfirst, ?_⟩
    rw [hfirst]
    simp [AuthContext.refreshToken, loggedOutState]
  · intro result hok hstat
    cases hs : st.session with
    | none => simp [AuthContext.refreshToken, hs]
    | some s =>
        by_cases hrt : s.refresh_token = ""
        · simp [AuthContext.refreshToken, hs, hrt]
        · cases hd : result.data with
          | none => simp [AuthContext.refreshToken, hs, hrt, hok, hd]
          | some d => simp [AuthContext.refreshToken, hs, hrt, hok, hd, hstat]
  · intro hs
    simp [AuthContext.refreshToken, hs]
  · intro s hs hrt
    simp [AuthContext.refreshToken, hs, hrt]

/-- C1 witness: in a state with a live session, a refresh exchange that
throws (with a non-throwing logout notification) ends in the fully
logged-out state with result false. -/
theorem C1_witness :
    AuthContext.refreshToken envRefreshThrows authedState = (loggedOutState, false) :=
  ((C1_refresh_failure_policy envRefreshThrows authedState).1 rfl rfl
    ⟨"at0", "rt0", 1000, ⟨"u1", "user@example.com"⟩⟩ rfl (by decide)).1

/-- Environment in which the backend logout notification throws. -/
def envLogoutThrows : Env :=
  { loginRes := .error (), refreshRes := .error (), logoutThrows := true,
    setSession := fun _ _ => .err, fromParam := none }

/-- C2 (code bug): with a session present and a backend logout notification
that throws, `logout` leaves the whole state untouched — the session is not
signed out, the user is not cleared, neither mirrored cookie is expired, and
no navigation to the login view happens, because the catch around the entire
cleanup only logs. -/
theorem C2_logout_throw_skips_cleanup :
    AuthContext.logout envLogoutThrows authedState = authedState ∧
    authedState.session ≠ none ∧ authedState.user ≠ none ∧
    authedState.accessCookie ≠ none ∧ authedState.refreshCookie ≠ none ∧
    authedState.loc ≠ some "/login" := by decide

/-- Environment in which login and refresh both succeed but the backend
logout notification throws. -/
def envHappyButLogoutThrows : Env :=
  { loginRes := .ok ⟨"success", some ⟨"atL", "rtL", "Wed, 01 Jan 2031 00:00:00 GMT"⟩, none⟩,
    refreshRes := .ok ⟨"success", some ⟨"atR", "rtR", "Thu, 02 Jan 2031 00:00:00 GMT"⟩, none⟩,
    logoutThrows := true,
    setSession := fun a r => .ok (some ⟨a, r, 2000000000, ⟨"u1", "user@example.com"⟩⟩),
    fromParam := none }

/-- The same environment with a logout notification that does not throw. -/
def envHappy : Env :=
  { envHappyButLogoutThrows with logoutThrows := false }

/-- The initial unauthenticated state. -/
def emptyState : AuthState :=
  { session := none, user := none, accessCookie := none, refreshCookie := none,
    loc := none }

/-- C3 counterexample: a login → refreshToken → logout run in which the final
backend logout notification throws ends fully authenticated — user, session
and both cookies all survive — contradicting the claim that every such
sequence ends unauthenticated. -/
theorem C3_counterexample :
    (AuthContext.logout envHappyButLogoutThrows
       (AuthContextV2.refreshToken envHappyButLogoutThrows
          (AuthContext.login envHappyButLogoutThrows emptyState).1).1).user ≠ none ∧
    (AuthContext.logout envHappyButLogoutThrows
       (AuthContextV2.refreshToken envHappyButLogoutThrows
          (AuthContext.login envHappyButLogoutThrows emptyState).1).1).session ≠ none ∧
    (AuthContext.logout envHappyButLogoutThrows
       (AuthContextV2.refreshToken envHappyButLogoutThrows
          (AuthContext.login envHappyButLogoutThrows emptyState).1).1).accessCookie ≠ none := by
  decide

/-- C3 (amended): provided the backend logout notification does not throw,
every login → refreshToken → logout sequence, from any starting state and
under any environment, ends fully unauthenticated: no user, no session, both
mirrored cookies cleared, and a hard navigation to the login view. -/
theorem C3_sequence_ends_unauthenticated (env : Env) (st : AuthState)
    (h : env.logoutThrows = false) :
    AuthContext.logout env
      (AuthContextV2.refreshToken env (AuthContext.login env st).1).1 = loggedOutState ∧
    loggedOutState.user = none ∧ loggedOutState.session = none ∧
    loggedOutState.accessCookie = none ∧ loggedOutState.refreshCookie = none ∧
    loggedOutState.loc = some "/login" := by
  refine ⟨?_, rfl, rfl, rfl, rfl, rfl⟩
  simp [AuthContext.logout, h]

/-- C3 witness: the concrete happy-path run from the empty state ends in the
logged-out state. -/
theorem C3_witness :
    AuthContext.logout envHappy
      (AuthContextV2.refreshToken envHappy (AuthContext.login envHappy emptyState).1).1
      = loggedOutState :=
  (C3_sequence_ends_unauthenticated envHappy emptyState rfl).1

end Auth

namespace FileUpload

/-- Status values of a background ingestion task. -/
inductive TaskSt where
  | queued
  | processing
  | completed
  | failed
  deriving DecidableEq

/-- The client-side tracking record for one background ingestion task
(`ProcessingTask` in FileUpload.tsx). -/
structure ProcessingTask where
  taskId : String
  filename : String
  status : TaskSt
  progress : Option Nat
  error : Option String
  deriving DecidableEq

/-- Response of the task-status endpoint (`TaskStatusResponse` in api.ts). -/
structure TaskStatusResponse where
  status : TaskSt
  progress : Option Nat
  error : Option String
  deriving DecidableEq

/-- A file as the handler sees it: name, size in bytes, and the declared MIME
type (which the handler never reads). -/
structure FileModel where
  name : String
  size : Nat
  mime : String
  deriving DecidableEq

/-- The fixed client-side size cap (FileUpload.tsx line 82): 3 MB. -/
def MAX_FILE_SIZE : Nat := 3 * 1024 * 1024

/-- The extension allow-list (FileUpload.tsx line 91). -/
def allowedExtensions : List String :=
  [".pdf", ".docx", ".doc", ".txt", ".csv", ".xlsx", ".xls"]

/-- The extension computation `'.' + file.name.split('.').pop()?.toLowerCase()`:
the last dot-separated segment of the name, lowercased, with a dot prepended
(`split` never yields an empty array, so the `pop` always produces a string
and the falsy guard on the result is dead). -/
def fileExtension (name : String) : String :=
  "." ++ jsToLower ((name.splitOn ".").getLastD "")

/-- Models `(size / 1024 / 1024).toFixed(2)`: the size in MB with two decimal
digits, rounded to the nearest hundredth (IEEE float rounding can differ in
the last digit on exact ties). -/
def toFixed2MB (size : Nat) : String :=
  let hundredths := (size * 100 + (1024 * 1024) / 2) / (1024 * 1024)
  toString (hundredths / 100) ++ "." ++
    (if hundredths % 100 < 10 then "0" else "") ++ toString (hundredths % 100)

/-- The local size-validation error message (FileUpload.tsx lines 84-86). -/
def sizeErrorMsg (size : Nat) : String :=
  "File size exceeds 3MB limit. Your file: " ++ toFixed2MB size ++ "MB"

/-- The local type-validation error message (FileUpload.tsx lines 94-96). -/
def typeErrorMsg : String :=
  "File type not supported. Please upload: " ++ String.intercalate ", " allowedExtensions

/-- The error classification in `handleFileUpload`'s catch (FileUpload.tsx
lines 170-186): substring checks in source order, with unmatched messages
passed through verbatim. -/
def classifyUploadError (msg : String) : String :=
  if substrB "Security check failed" msg then
    "File rejected for security reasons. Please upload a different file."
  else if substrB "File type" msg then
    "File type not supported or file appears to be corrupted."
  else if substrB "File size" msg then
    "File size exceeds limit. Please upload a smaller file."
  else if substrB "rate limit" msg then
    "Too many file operations. Please wait before uploading more files."
  else msg

/-- The component state touched by `handleFileUpload`. -/
structure FUState where
  isUploading : Bool
  uploadError : String
  uploadSuccess : String
  uploadProgress : Nat
  currentStage : String
  processingTasks : List ProcessingTask
  deriving DecidableEq

/-- Shape of an ingestion response: `status`, optional `task_id`, optional
message. -/
structure UploadResult where
  status : String
  task_id : Option String
  message : Option String
  deriving DecidableEq

/-- Environment of one upload: the outcome of the background ingestion call
and of the synchronous fallback (`Except.error` = the call throws, carrying
the thrown error message). -/
structure UploadEnv where
  bgRes : Except String UploadResult
  syncRes : Except String UploadResult

/-- `handleFileUpload` (FileUpload.tsx lines 77-195) as a state transformer;
the second component counts the network requests issued. Validation runs
before any network call; then background ingestion is attempted with the
synchronous endpoint as fallback; the `finally` block resets the uploading
flag, progress and stage. -/
def handleFileUpload (env : UploadEnv) (user : Option Auth.SUser)
    (file : Option FileModel) (st : FUState) : FUState × Nat :=
  match file, user with
  | none, _ => (st, 0)
  | some _, none => (st, 0)
  | some f, some _ =>
      if f.size > MAX_FILE_SIZE then
        ({ st with uploadError := sizeErrorMsg f.size }, 0)
      else if !(allowedExtensions.contains (fileExtension f.name)) then
        ({ st with uploadError := typeErrorMsg }, 0)
      else
        let res : Except String UploadResult × Nat :=
          match env.bgRes with
          | .ok r => (.ok r, 1)
          | .error _ =>
              match env.syncRes with
              | .ok r => (.ok r, 2)
              | .error e => (.error e, 2)
        let st1 := { st with uploadError := "", uploadSuccess := "" }
        let st2 : FUState :=
          match res.1 with
          | .ok r =>
              if r.status = "processing" && r.task_id.isSome then
                { st1 with
                    uploadSuccess :=
                      "File \"" ++ f.name ++ "\" is being processed. You can continue using the app.",
                    processingTasks := st1.processingTasks ++
                      [{ taskId := r.task_id.getD "", filename := f.name,
                         status := .queued, progress := some 0, error := none }] }
              else if r.status = "success" then
                { st1 with uploadSuccess := "File \"" ++ f.name ++ "\" uploaded successfully!" }
              else
                { st1 with uploadError :=
                    classifyUploadError (orElseStr r.message "Upload failed with unknown status") }
          | .error e => { st1 with uploadError := classifyUploadError e }
        ({ st2 with isUploading := false, uploadProgress := 0, currentStage := "" }, res.2)

/-- JS truthiness of the polled status: a task is active while queued or
processing. -/
def isActive (t : ProcessingTask) : Bool :=
  t.status == .queued || t.status == .processing

/-- The `activeTasks` filter captured by the polling effect
(FileUpload.tsx lines 34-36). -/
def activeTasks (ts : List ProcessingTask) : List ProcessingTask :=
  ts.filter isActive

/-- The task ids polled in one interval tick: one `getTaskStatus` call per
captured active task. -/
def polledIds (ts : List ProcessingTask) : List String :=
  (activeTasks ts).map (fun t => t.taskId)

/-- One task-record update from a poll response (FileUpload.tsx lines 45-54):
`status.progress || t.progress` keeps the old value when the response
progress is missing or `0` (JS falsy); the error field is overwritten. -/
def updateTask (t : ProcessingTask) (s : TaskStatusResponse) : ProcessingTask :=
  { t with
      status := s.status,
      progress := match s.progress with
        | some p => if p = 0 then t.progress else some p
        | none => t.progress,
      error := s.error }

/-- One poll of one target task: `none` from the endpoint models a thrown
`getTaskStatus`, which the loop catches and logs; otherwise the update is
applied to every list entry with the target's task id. -/
def pollOne (env : String → Option TaskStatusResponse) (ts : List ProcessingTask)
    (target : ProcessingTask) : List ProcessingTask :=
  match env target.taskId with
  | none => ts
  | some s => ts.map (fun t => if t.taskId == target.taskId then updateTask t s else t)

/-- One 2-second interval tick (FileUpload.tsx lines 40-72): iterate the
captured active tasks, polling each and folding its update into the list. -/
def pollTick (env : String → Option TaskStatusResponse) (ts : List ProcessingTask) :
    List ProcessingTask :=
  (activeTasks ts).foldl (pollOne env) ts

/-- The guard of the polling effect (FileUpload.tsx lines 32-38): an interval
is installed only when the task list is non-empty and some task is still
queued or processing. -/
def shouldPoll (ts : List ProcessingTask) : Bool :=
  ts.length != 0 && (activeTasks ts).length != 0

/-- The per-task status text (FileUpload.tsx lines 216-229); a failed task
shows `Failed:` followed by its error string (with the JS-falsy fallback for
a missing or empty error). -/
def getTaskStatusText (t : ProcessingTask) : String :=
  match t.status with
  | .queued => "Queued for processing"
  | .processing => "Processing... " ++ toString (t.progress.getD 0) ++ "%"
  | .completed => "Processing complete"
  | .failed => "Failed: " ++ orElseStr t.error "Unknown error"

/-- The initial component state of `FileUpload`. -/
def initialFUState : FUState :=
  { isUploading := false, uploadError := "", uploadSuccess := "", uploadProgress := 0,
    currentStage := "", processingTasks := [] }

/-- C6: a file over the size cap, or with an extension outside the
allow-list, makes the handler set the descriptive local error and return with
zero network calls; and the handler is entirely independent of the file's
declared MIME type. -/
theorem C6_validation_blocks_network (env : UploadEnv) (u : Auth.SUser)
    (f : FileModel) (st : FUState) :
    (f.size > MAX_FILE_SIZE →
       handleFileUpload env (some u) (some f) st =
         ({ st with uploadError := sizeErrorMsg f.size }, 0) ∧
       sizeErrorMsg f.size ≠ "") ∧
    (¬ f.size > MAX_FILE_SIZE → fileExtension f.name ∉ allowedExtensions →
       handleFileUpload env (some u) (some f) st =
         ({ st with uploadError := typeErrorMsg }, 0) ∧
       typeErrorMsg ≠ "") ∧
    (∀ m₁ m₂, handleFileUpload env (some u) (some { f with mime := m₁ }) st =
              handleFileUpload env (some u) (some { f with mime := m₂ }) st) := by
  refine ⟨?_, ?_, ?_⟩
  · intro h
    refine ⟨by simp [handleFileUpload, h], ?_⟩
    intro hc
    have h2 := congrArg String.length hc
    rw [sizeErrorMsg, String.length_append, String.length_append] at h2
    have h40 : "File size exceeds 3MB limit. Your file: ".length = 40 := by decide
    have h0 : "".length = 0 := by decide
    rw [h40, h0] at h2
    omega
  · intro h1 h2
    exact ⟨by simp [handleFileUpload, h1, h2], by decide⟩
  · intro m₁ m₂
    rfl

/-- C6 witness: a 4 MB PDF is rejected locally with the size message and
issues no network request. -/
theorem C6_witness :
    handleFileUpload ⟨.error "net", .error "net"⟩ (some ⟨"u1", "user@example.com"⟩)
        (some ⟨"big.pdf", 4 * 1024 * 1024, "application/pdf"⟩) initialFUState =
      ({ initialFUState with uploadError := sizeErrorMsg (4 * 1024 * 1024) }, 0) :=
  ((C6_validation_blocks_network ⟨.error "net", .error "net"⟩ ⟨"u1", "user@example.com"⟩
      ⟨"big.pdf", 4 * 1024 * 1024, "application/pdf"⟩ initialFUState).1 (by decide)).1

/-- The effect one polled target has on one list entry. -/
def step (env : String → Option TaskStatusResponse) (target t : ProcessingTask) :
    ProcessingTask :=
  match env target.taskId with
  | none => t
  | some s => if t.taskId == target.taskId then updateTask t s else t

/-- One poll rewritten as a map over the whole list. -/
theorem pollOne_eq_map (env : String → Option TaskStatusResponse)
    (ts : List ProcessingTask) (target : ProcessingTask) :
    pollOne env ts target = ts.map (step env target) := by
  unfold pollOne step
  cases h : env target.taskId with
  | none => simp
  | some s => rfl

/-- The polling fold rewritten as a single map of composed per-element
updates. -/
theorem foldl_pollOne_eq_map (env : String → Option TaskStatusResponse)
    (targets : List ProcessingTask) :
    ∀ acc : List ProcessingTask,
      targets.foldl (pollOne env) acc =
        acc.map (fun t => targets.foldl (fun x tg => step env tg x) t) := by
  induction targets with
  | nil => intro acc; simp
  | cons tg tgs ih =>
      intro acc
      rw [List.foldl_cons, ih, pollOne_eq_map, List.map_map]
      rfl

/-- A list entry whose id matches no polled target is untouched by the
composed updates. -/
theorem foldl_step_id (env : String → Option TaskStatusResponse)
    (targets : List ProcessingTask) (t : ProcessingTask)
    (h : ∀ tg ∈ targets, (t.taskId == tg.taskId) = false) :
    targets.foldl (fun x tg => step env tg x) t = t := by
  induction targets with
  | nil => rfl
  | cons tg tgs ih =>
      have h1 : step env tg t = t := by
        unfold step
        cases henv : env tg.taskId with
        | none => rfl
        | some s => simp [h tg (List.mem_cons_self tg tgs)]
      rw [List.foldl_cons, h1]
      exact ih (fun x hx => h x (List.mem_cons_of_mem tg hx))

/-- A task in a terminal state is not active. -/
theorem terminal_not_active (t : ProcessingTask)
    (h : t.status = .completed ∨ t.status = .failed) : isActive t = false := by
  unfold isActive
  rcases h with h | h <;> rw [h] <;> decide

/-- C7: a task whose status is terminal is excluded from the polled ids and
survives a tick unchanged (given distinct task ids); the polling effect
installs no interval once no task is queued or processing; and a task that
fails with error "corrupt file" carries that string verbatim into its final
record and status text, after which polling stops. -/
theorem C7_polling (env : String → Option TaskStatusResponse) (ts : List ProcessingTask) :
    ((ts.map (fun t => t.taskId)).Nodup →
       ∀ t, t ∈ ts → (t.status = .completed ∨ t.status = .failed) →
         t.taskId ∉ polledIds ts ∧ t ∈ pollTick env ts) ∧
    (activeTasks ts = [] → shouldPoll ts = false) ∧
    (∀ t, isActive t = true →
       env t.taskId = some ⟨.failed, none, some "corrupt file"⟩ →
       pollTick env [t] = [updateTask t ⟨.failed, none, some "corrupt file"⟩] ∧
       (updateTask t ⟨.failed, none, some "corrupt file"⟩).error = some "corrupt file" ∧
       getTaskStatusText (updateTask t ⟨.failed, none, some "corrupt file"⟩) =
         "Failed: corrupt file" ∧
       shouldPoll (pollTick env [t]) = false) := by
  refine ⟨?_, ?_, ?_⟩
  · intro hnodup t ht hterm
    have hact := terminal_not_active t hterm
    have hid : ∀ tg ∈ activeTasks ts, (t.taskId == tg.taskId) = false := by
      intro tg htg
      obtain ⟨htgts, htgact⟩ := List.mem_filter.mp htg
      cases hb : (t.taskId == tg.taskId) with
      | false => rfl
      | true =>
          exfalso
          have heq : t.taskId = tg.taskId := eq_of_beq hb
          have hteq := List.inj_on_of_nodup_map hnodup ht htgts heq
          rw [← hteq, hact] at htgact
          exact Bool.false_ne_true htgact
    constructor
    · intro hmem
      obtain ⟨tg, htg, htgid⟩ := List.mem_map.mp hmem
      have hf := hid tg htg
      rw [htgid] at hf
      simp at hf
    · unfold pollTick
      rw [foldl_pollOne_eq_map]
      have hfix := foldl_step_id env (activeTasks ts) t hid
      have hm := List.mem_map_of_mem
        (fun x => (activeTasks ts).foldl (fun y tg => step env tg y) x) ht
      simpa [hfix] using hm
  · intro h
    simp [shouldPoll, h]
  · intro t hact henv
    have h1 : activeTasks [t] = [t] := by
      simp [activeTasks, List.filter, hact]
    have h2 : pollTick env [t] = [updateTask t ⟨.failed, none, some "corrupt file"⟩] := by
      unfold pollTick
      rw [h1]
      simp [List.foldl, pollOne, henv]
    refine ⟨h2, rfl, ?_, ?_⟩
    · simp [getTaskStatusText, updateTask, orElseStr]
    · rw [h2]
      simp [shouldPoll, activeTasks, isActive, updateTask]

/-- A finished task used to exercise the polling theorems. -/
def doneTask : ProcessingTask := ⟨"id1", "report.pdf", .completed, some 100, none⟩

/-- C7 witness: a completed task is not among the polled ids and survives a
tick of the polling loop unchanged. -/
theorem C7_witness :
    doneTask.taskId ∉ polledIds [doneTask] ∧ doneTask ∈ pollTick (fun _ => none) [doneTask] :=
  (C7_polling (fun _ => none) [doneTask]).1 (by decide) doneTask (by simp) (Or.inl rfl)

/-- C8 counterexample: the message "fetch failed" contains the substring
fetch, yet the classifier has no network/fetch branch and shows the string
verbatim instead of mapping it to a friendly network-error message. -/
theorem C8_counterexample :
    substrB "fetch" "fetch failed" = true ∧
    classifyUploadError "fetch failed" = "fetch failed" := by decide

/-- C8 (amended): the raw error string is matched, in source order, against
the substrings Security check failed, File type, File size and rate limit,
each mapped to its fixed friendly message; there is no network/fetch
category, and a string matching none of the four substrings is shown
verbatim. -/
theorem C8_classification (msg : String) :
    (substrB "Security check failed" msg = true →
       classifyUploadError msg =
         "File rejected for security reasons. Please upload a different file.") ∧
    (substrB "Security check failed" msg = false → substrB "File type" msg = true →
       classifyUploadError msg = "File type not supported or file appears to be corrupted.") ∧
    (substrB "Security check failed" msg = false → substrB "File type" msg = false →
     substrB "File size" msg = true →
       classifyUploadError msg = "File size exceeds limit. Please upload a smaller file.") ∧
    (substrB "Security check failed" msg = false → substrB "File type" msg = false →
     substrB "File size" msg = false → substrB "rate limit" msg = true →
       classifyUploadError msg =
         "Too many file operations. Please wait before uploading more files.") ∧
    (substrB "Security check failed" msg = false → substrB "File type" msg = false →
     substrB "File size" msg = false → substrB "rate limit" msg = false →
       classifyUploadError msg = msg) :=
  ⟨fun h1 => by simp [classifyUploadError, h1],
   fun h1 h2 => by simp [classifyUploadError, h1, h2],
   fun h1 h2 h3 => by simp [classifyUploadError, h1, h2, h3],
   fun h1 h2 h3 h4 => by simp [classifyUploadError, h1, h2, h3, h4],
   fun h1 h2 h3 h4 => by simp [classifyUploadError, h1, h2, h3, h4]⟩

/-- C8 witness: a message matching none of the four substrings is shown
verbatim. -/
theorem C8_witness : classifyUploadError "boom" = "boom" :=
  (C8_classification "boom").2.2.2.2 (by decide) (by decide) (by decide) (by decide)

end FileUpload

namespace Chat

/-- The usage snapshot returned by the usage endpoint. -/
structure UsageData where
  files_used : Nat
  queries_used : Nat
  files_limit : Nat
  queries_limit : Nat
  deriving DecidableEq

/-- The query response the chat reads: the answer, the success flag, and the
optional error message. -/
structure QueryResponse where
  answer : String
  success : Bool
  error_message : Option String
  deriving DecidableEq

/-- Environment of one chat submission: the outcomes of the usage check, of
`clearConversationContext`, and of `query` (`Except.error` = the call
throws, carrying the thrown error message). -/
structure ChatEnv where
  usageRes : Except Unit UsageData
  clearRes : Except String Unit
  queryRes : Except String QueryResponse

/-- Observable outcome of one `handleSubmit`: the message contents appended
to the transcript in order, and which backend operations were invoked. -/
structure SubmitOutcome where
  messages : List String
  clearCalled : Bool
  queryCalled : Bool
  deriving DecidableEq

/-- The trial-limit message (ChatInterface.tsx lines 74-80). -/
def trialLimitMsg : String :=
  "🚀 **Trial Complete!**\n\nYou\x27ve used all 20 free queries.\nJoin our waitlist to be notified when the full version launches!"

/-- The too-short validation message (ChatInterface.tsx line 92). -/
def tooShortMsg : String := "Please ask a longer question (at least 2 characters)."

/-- The too-long validation message (ChatInterface.tsx line 103). -/
def tooLongMsg : String := "Question is too long. Please keep it under 5000 characters."

/-- The fixed confirmation appended after clearing the conversation context
(ChatInterface.tsx line 128). -/
def clearConfirmMsg : String := "Conversation context cleared. I\x27m ready for a new topic."

/-- The chat error classification (ChatInterface.tsx lines 157-171). -/
def classifyChatError (msg : String) : String :=
  if substrB "No documents found" msg || substrB "knowledge base" msg then
    "I don\x27t have a knowledge base yet. Please upload documents first."
  else if substrB "rate limit" msg || substrB "Too many requests" msg || substrB "busy" msg then
    "I\x27m processing too many requests right now. Please wait a moment and try again."
  else if substrB "Invalid question" msg || substrB "Please provide" msg then
    "Please ask a clearer question with more details."
  else if substrB "timeout" msg || substrB "taking too long" msg then
    "The AI service is taking longer than usual to respond. Please try again."
  else if substrB "unavailable" msg then
    "The AI service is currently unavailable. Please try again in a few minutes."
  else
    "I encountered an error: " ++ msg ++ ". Please try again or rephrase your question."

/-- The tail of `handleSubmit` after the usage gate (ChatInterface.tsx lines
88-183): length validation, the clear-context branch keyed on the lowercased
input containing clear context or start over, and otherwise the regular
query. -/
def handleSubmitRest (env : ChatEnv) (input : String) : SubmitOutcome :=
  if (jsTrim input).length < 2 then ⟨[tooShortMsg], false, false⟩
  else if input.length > 5000 then ⟨[tooLongMsg], false, false⟩
  else if substrB "clear context" (jsToLower input) || substrB "start over" (jsToLower input) then
    match env.clearRes with
    | .ok _ => ⟨[input, clearConfirmMsg], true, false⟩
    | .error e => ⟨[input, classifyChatError e], true, false⟩
  else
    match env.queryRes with
    | .ok r =>
        if r.success then ⟨[input, r.answer], false, true⟩
        else ⟨[input, classifyChatError (orElseStr r.error_message "Failed to get response")],
              false, true⟩
    | .error e => ⟨[input, classifyChatError e], false, true⟩

/-- `handleSubmit` (ChatInterface.tsx lines 66-184): bail out on empty input
or missing user; run the usage gate (a thrown usage fetch is caught and
ignored); then the validation, clear-context and query flow of
`handleSubmitRest`. -/
def handleSubmit (env : ChatEnv) (user : Option Auth.SUser) (input : String) :
    SubmitOutcome :=
  if jsTrim input = "" then ⟨[], false, false⟩
  else
    match user with
    | none => ⟨[], false, false⟩
    | some _ =>
        match env.usageRes with
        | .ok usage =>
            if usage.queries_used ≥ 20 then ⟨[trialLimitMsg], false, false⟩
            else handleSubmitRest env input
        | .error _ => handleSubmitRest env input

/-- C10: a submission that passes the usage gate and the length validation,
and whose lowercased text contains clear context or start over, always calls
the clear-context operation and never the query operation; when the clear
call succeeds, the transcript gains exactly the user message and the fixed
confirmation. -/
theorem C10_clear_context_branch (env : ChatEnv) (u : Auth.SUser) (input : String)
    (hne : jsTrim input ≠ "")
    (hlen : ¬ (jsTrim input).length < 2)
    (hmax : ¬ input.length > 5000)
    (husage : ∀ usage, env.usageRes = .ok usage → usage.queries_used < 20)
    (hsub : (substrB "clear context" (jsToLower input) || substrB "start over" (jsToLower input)) = true) :
    (handleSubmit env (some u) input).clearCalled = true ∧
    (handleSubmit env (some u) input).queryCalled = false ∧
    (env.clearRes = .ok () →
       handleSubmit env (some u) input = ⟨[input, clearConfirmMsg], true, false⟩) := by
  have hgate : handleSubmit env (some u) input = handleSubmitRest env input := by
    cases hu : env.usageRes with
    | error e => simp [handleSubmit, hne, hu]
    | ok usage =>
        have := husage usage hu
        simp [handleSubmit, hne, hu, Nat.not_le.mpr this]
  have hrest : ∀ out, handleSubmitRest env input = out →
      (out = ⟨[input, clearConfirmMsg], true, false⟩ ∨
       ∃ e, env.clearRes = .error e ∧ out = ⟨[input, classifyChatError e], true, false⟩) := by
    intro out hout
    rw [handleSubmitRest] at hout
    rw [if_neg hlen, if_neg hmax, if_pos hsub] at hout
    cases hc : env.clearRes with
    | ok v => left; rw [hc] at hout; exact hout.symm
    | error e => right; exact ⟨e, rfl, by rw [hc] at hout; exact hout.symm⟩
  rcases hrest (handleSubmitRest env input) rfl with hcase | ⟨e, hc, hcase⟩
  · rw [hgate, hcase]
    exact ⟨rfl, rfl, fun _ => rfl⟩
  · rw [hgate, hcase]
    refine ⟨rfl, rfl, ?_⟩
    intro hok
    rw [hok] at hc
    cases hc

/-- C10 witness: under a below-limit usage snapshot, the input "please clear
context" triggers the clear-context flow with the fixed confirmation, and no
query is issued. -/
theorem C10_witness :
    handleSubmit ⟨.ok ⟨1, 5, 5, 20⟩, .ok (), .error "unused"⟩
        (some ⟨"u1", "user@example.com"⟩) "please clear context" =
      ⟨["please clear context", clearConfirmMsg], true, false⟩ :=
  (C10_clear_context_branch ⟨.ok ⟨1, 5, 5, 20⟩, .ok (), .error "unused"⟩
      ⟨"u1", "user@example.com"⟩ "please clear context"
      (by decide) (by decide) (by decide)
      (fun usage h => by cases h; decide) (by decide)).2.2 rfl

end Chat
